import Mathlib

/-!
Verification of the BGP Prefix-SID attribute decoder
(`src/Server/src/bgp/BGPPrefixSID.{h,cpp}`, namespace `bgp_msg`, class
`BGPPrefixSID`).

The decoder walks an untrusted byte buffer as a three-level TLV structure
and builds a `boost::property_tree::ptree`.  The embedding below models:

* the buffer as a `List Nat` of byte values, with C pointers modelled as
  `Int` offsets into that list (`byteAt`); reads outside the buffer yield 0
  and are recorded in a diagnostic `overread` flag (the C++ code performs no
  bounds checks, so an out-of-range offset is simply whatever lies there);
* `readData` literally (reversed copy when `host_byte_order`, verbatim
  otherwise), with 2-byte fields reassembled as on the little-endian host the
  reference code assumes (`u16ofBytes`, `readU16`);
* the property tree with boost's `put` (replace data of the first child with
  the key, else append) and `add_child` (always append) on single-segment
  paths, which is all the decoder uses;
* the `endpoint_behavior_codepoint_to_name` switch as an association list
  plus the two range fallbacks;
* `inet_ntop(AF_INET6, ...)` — an external collaborator per the spec — as
  the standard renderer: longest (earliest) run of at least two zero
  16-bit groups becomes `::`, groups print as lowercase hex, with the
  embedded-IPv4 special case;
* the three loops of `parseBGPPrefixSIDAttr` / `parseSRv6L3ServiceTLV` as
  fuel-indexed recursions returning `none` exactly when the fuel runs out;
  the wrappers supply fuel that the termination theorems prove sufficient.

The loop embeddings additionally return ghost diagnostics: per-level
iteration counts and the `overread` flag.  These extra fields never feed
back into the parsed tree.
-/

/-- Byte at `Int` offset `i` of the buffer (pointer-arithmetic model of
`u_char *`): out-of-range accesses return 0 and are tracked separately by
`rangeInBounds`. -/
def byteAt (buf : List Nat) (i : Int) : Nat :=
  if 0 ≤ i then buf.getD i.toNat 0 else 0

/-- Whether offset `i` lies inside the buffer. -/
def inBuf (buf : List Nat) (i : Int) : Bool :=
  decide (0 ≤ i) && decide (i < (buf.length : Int))

/-- Whether the `n` bytes starting at offset `i` all lie inside the buffer. -/
def rangeInBounds (buf : List Nat) (i : Int) (n : Nat) : Bool :=
  (List.range n).all (fun (j : Nat) => inBuf buf (i + (j : Int)))

/-- Embedding of `BGPPrefixSID::readData(u_char *field, u_char *data, size_t
size, bool host_byte_order)` (BGPPrefixSID.cpp lines 39-50): the returned list
is the `field` array after the copy.  When `host_byte_order` is true the
source bytes are written in reversed order (`field[j] = data[size-1-j]`);
otherwise they are copied verbatim. -/
def readData (buf : List Nat) (i : Int) (size : Nat) (host_byte_order : Bool) :
    List Nat :=
  if host_byte_order then
    (List.range size).map
      (fun (j : Nat) => byteAt buf (i + ((size : Int) - 1 - (j : Int))))
  else
    (List.range size).map (fun (j : Nat) => byteAt buf (i + (j : Int)))

/-- Value of a `uint16_t` whose two bytes are the given list, on the
little-endian host the reference code assumes. -/
def u16ofBytes (bytes : List Nat) : Nat :=
  bytes.getD 0 0 + 256 * bytes.getD 1 0

/-- Embedding of the `readData(uint16_t *field, u_char *data, 2)` overload
(BGPPrefixSID.cpp lines 52-54) with the default `host_byte_order = true`:
the two wire bytes are reversed into the field, so on a little-endian host
the field holds the big-endian (network-order) value. -/
def readU16 (buf : List Nat) (i : Int) : Nat :=
  u16ofBytes (readData buf i 2 true)

/-- Scalar data held at a property-tree node: boost stores strings; the
decoder writes either strings or integers (boost's stream translator writes
`uint8_t`/`uint16_t` as integers). -/
inductive PVal where
  | null : PVal
  | str : String → PVal
  | num : Nat → PVal
deriving DecidableEq

/-- Ordered property tree: own data plus an ordered list of keyed children,
modelling `boost::property_tree::ptree`. -/
inductive PTree where
  | node : PVal → List (String × PTree) → PTree

/-- Data of a node. -/
def PTree.data : PTree → PVal
  | .node d _ => d

/-- Children of a node. -/
def PTree.children : PTree → List (String × PTree)
  | .node _ c => c

/-- Empty tree. -/
def PTree.empty : PTree := .node .null []

/-- Helper of `PTree.put`: replace the data of the first child carrying the
key, or append a fresh leaf. -/
def putChildren : List (String × PTree) → String → PVal → List (String × PTree)
  | [], key, v => [(key, .node v [])]
  | (k, t) :: rest, key, v =>
    if k = key then (k, .node v t.children) :: rest
    else (k, t) :: putChildren rest key v

/-- boost `ptree::put` on a single-segment path (the only shape the decoder
uses): set the data of the first child with that key, creating it if absent. -/
def PTree.put (t : PTree) (key : String) (v : PVal) : PTree :=
  .node t.data (putChildren t.children key v)

/-- boost `ptree::add_child` on a single-segment path: always append a new
child, even when one with the same key already exists. -/
def PTree.add_child (t : PTree) (key : String) (c : PTree) : PTree :=
  .node t.data (t.children ++ [(key, c)])

/-- boost `ptree::get_child`-style path lookup (first child with each key),
used only to state properties of decoded trees. -/
def PTree.getPath : PTree → List String → Option PTree
  | t, [] => some t
  | t, k :: ks =>
    match t.children.lookup k with
    | some c => c.getPath ks
    | none => none

/-- The explicit `case` arms of `endpoint_behavior_codepoint_to_name`
(BGPPrefixSID.h lines 124-239), in source order. -/
def behavior_table : List (Nat × String) :=
  [(0, "Reserved"), (1, "End"), (2, "End with PSP"), (3, "End with USP"),
   (4, "End with PSP & USP"), (5, "End.X"), (6, "End.X with PSP"),
   (7, "End.X with USP"), (8, "End.X with PSP & USP"), (9, "End.T"),
   (10, "End.T with PSP"), (11, "End.T with USP"), (12, "End.T with PSP & USP"),
   (13, "End.B6.Insert"), (14, "End.B6.Encaps"), (15, "End.BM"),
   (16, "End.DX6"), (17, "End.DX4"), (18, "End.DT6"), (19, "End.DT4"),
   (20, "End.DT46"), (21, "End.DX2"), (22, "End.DX2V"), (23, "End.DT2U"),
   (24, "End.DT2M"), (25, "Reserved"), (26, "End.B6.Insert.Red"),
   (27, "End.B6.Encaps.Red"), (28, "End with USD"), (29, "End with PSP & USD"),
   (30, "End with USP & USD"), (31, "End with PSP, USP & USD"),
   (32, "End.X with USD"), (33, "End.X with PSP & USD"),
   (34, "End.X with USP & USD"), (35, "End.X with PSP, USP & USD"),
   (36, "End.T with USD"), (37, "End.T with PSP & USD"),
   (38, "End.T with USP & USD"), (39, "End.T with PSP, USP & USD"),
   (40, "End.MAP"), (41, "End.Limit"), (42, "End with NEXT-ONLY-CSID"),
   (43, "End with NEXT-CSID"), (44, "End with NEXT-CSID & PSP"),
   (45, "End with NEXT-CSID & USP"), (46, "End with NEXT-CSID, PSP & USP"),
   (47, "End with NEXT-CSID & USD"), (48, "End with NEXT-CSID, PSP & USD"),
   (49, "End with NEXT-CSID, USP & USD"),
   (50, "End with NEXT-CSID, PSP, USP & USD"),
   (51, "End.X with NEXT-ONLY-CSID"), (52, "End.X with NEXT-CSID"),
   (53, "End.X with NEXT-CSID & PSP"), (54, "End.X with NEXT-CSID & USP"),
   (55, "End.X with NEXT-CSID, PSP & USP"), (56, "End.X with NEXT-CSID & USD"),
   (57, "End.X with NEXT-CSID, PSP & USD"),
   (58, "End.X with NEXT-CSID, USP & USD"),
   (59, "End.X with NEXT-CSID, PSP, USP & USD"),
   (60, "End.DX6 with NEXT-CSID"), (61, "End.DX4 with NEXT-CSID"),
   (62, "End.DT6 with NEXT-CSID"), (63, "End.DT4 with NEXT-CSID"),
   (64, "End.DT46 with NEXT-CSID"), (65, "End.DX2 with NEXT-CSID"),
   (66, "End.DX2V with NEXT-CSID"), (67, "End.DT2U with NEXT-CSID"),
   (68, "End.DT2M with NEXT-CSID"), (69, "End.M.GTP6.D"),
   (70, "End.M.GTP6.Di"), (71, "End.M.GTP6.E"), (72, "End.M.GTP4.E"),
   (73, "End.DTM"), (74, "End.M (Mirror SID)"), (75, "End.Replicate"),
   (76, "End.DTMC4"), (77, "End.DTMC6"), (78, "End.DTMC46"), (79, "End.BXC"),
   (80, "End.BXC with PSP"), (81, "End.BXC with USP"), (82, "End.BXC with USD"),
   (83, "End.BXC with PSP, USP & USD"), (100, "End.PSID"),
   (101, "End with REPLACE-CSID"), (102, "End with REPLACE-CSID & PSP"),
   (103, "End with REPLACE-CSID & USP"),
   (104, "End with REPLACE-CSID, PSP & USP"),
   (105, "End.X with REPLACE-CSID"), (106, "End.X with REPLACE-CSID & PSP"),
   (107, "End.X with REPLACE-CSID & USP"),
   (108, "End.X with REPLACE-CSID, PSP & USP"),
   (109, "End.T with COC"), (110, "End.T with PSP&COC"),
   (112, "End.T with PSP&USP&COC"), (128, "End with REPLACE-CSID & USD"),
   (129, "End with REPLACE-CSID, USP & USD"),
   (130, "End with REPLACE-CSID, PSP & USD"),
   (131, "End with REPLACE-CSID, PSP, USP & USD"),
   (132, "End.X with REPLACE-CSID & USD"),
   (133, "End.X with REPLACE-CSID, PSP & USD"),
   (134, "End.X with REPLACE-CSID, USP & USD"),
   (135, "End.X with REPLACE-CSID, PSP, USP & USD"),
   (137, "End.T with PSP&USD&COC"), (139, "End.T with PSP&USP&USD&COC"),
   (150, "End.XU"), (151, "End.XU with PSP"), (152, "End.XU with USP"),
   (153, "End.XU with USD"), (154, "End.XU with PSP, USP & USD"),
   (155, "End.XU with REPPLACE-CSID"), (156, "End.XU with REPPLACE-CSID & PSP"),
   (157, "End.XU with REPPLACE-CSID & PSP & USP & USD"),
   (32767, "The SID defined in [RFC8754]"), (65535, "Opaque")]

/-- Embedding of `BGPPrefixSID::endpoint_behavior_codepoint_to_name`
(BGPPrefixSID.h lines 122-247): the explicit switch arms, then the two
half-open ranges, then `"Unassigned"`. -/
def endpoint_behavior_codepoint_to_name (code : Nat) : String :=
  match behavior_table.lookup code with
  | some name => name
  | none =>
    if 32768 ≤ code ∧ code ≤ 34815 then "Reserved for Private Use"
    else if 34816 ≤ code ∧ code ≤ 65534 then "Reserved"
    else "Unassigned"

/-- Lowercase hexadecimal rendering of a 16-bit group, as `sprintf("%x")`. -/
def hexStr (n : Nat) : String := String.mk (Nat.toDigits 16 n)

/-- Dotted-quad rendering used by the renderer's embedded-IPv4 tail. -/
def inet_ntop4 (b0 b1 b2 b3 : Nat) : String :=
  toString b0 ++ "." ++ toString b1 ++ "." ++ toString b2 ++ "." ++ toString b3

/-- The eight 16-bit groups of a 16-byte address, big-endian within each
group. -/
def wordsOfBytes (bytes : List Nat) : List Nat :=
  (List.range 8).map (fun i => bytes.getD (2 * i) 0 * 256 + bytes.getD (2 * i + 1) 0)

/-- Longest (earliest on ties) run of zero groups, discarded when shorter
than two, as computed by the standard renderer's first pass. -/
def bestZeroRun (words : List Nat) : Option (Nat × Nat) :=
  let step : (Option (Nat × Nat) × Option (Nat × Nat)) → (Nat × Nat) →
      (Option (Nat × Nat) × Option (Nat × Nat)) :=
    fun st iw =>
      match st, iw with
      | (best, cur), (i, w) =>
        if w = 0 then
          match cur with
          | none => (best, some (i, 1))
          | some (b, l) => (best, some (b, l + 1))
        else
          match cur, best with
          | none, _ => (best, none)
          | some c, none => (some c, none)
          | some c, some b => (if c.2 > b.2 then some c else some b, none)
  let res := words.enum.foldl step (none, none)
  let best :=
    match res.2, res.1 with
    | none, best => best
    | some c, none => some c
    | some c, some b => if c.2 > b.2 then some c else some b
  match best with
  | some (_, l) => if l < 2 then none else best
  | none => none

/-- Model of `inet_ntop(AF_INET6, src, ...)` — the spec's external
address-formatting collaborator — on the 16 bytes of the SID: groups in
lowercase hex, the best zero run as `::`, and the embedded-IPv4 tail
special case. -/
def inet_ntop6 (bytes : List Nat) : String :=
  let words := wordsOfBytes bytes
  let best := bestZeroRun words
  let step : (String × Bool) → Nat → (String × Bool) :=
    fun st i =>
      if st.2 then st
      else
        match best with
        | some (b, l) =>
          if b ≤ i ∧ i < b + l then
            (if i = b then st.1 ++ ":" else st.1, false)
          else
            let s := if i ≠ 0 then st.1 ++ ":" else st.1
            if i = 6 ∧ b = 0 ∧ (l = 6 ∨ (l = 7 ∧ words.getD 7 0 ≠ 1) ∨
                (l = 5 ∧ words.getD 5 0 = 65535)) then
              (s ++ inet_ntop4 (bytes.getD 12 0) (bytes.getD 13 0)
                (bytes.getD 14 0) (bytes.getD 15 0), true)
            else
              (s ++ hexStr (words.getD i 0), false)
        | none =>
          let s := if i ≠ 0 then st.1 ++ ":" else st.1
          (s ++ hexStr (words.getD i 0), false)
  let out := ((List.range 8).foldl step ("", false)).1
  match best with
  | some (b, l) => if b + l = 8 then out ++ ":" else out
  | none => out

/-- Result of the sub-sub-TLV loop: the `sid_information` node after any
`sid_structure` children were added, the (shared) `tlv_cnt` counter as the
inner loop left it, plus ghost diagnostics (iteration count, overread). -/
structure SubSubResult where
  sub_pt : PTree
  tlv_cnt : Int
  iters : Nat
  overread : Bool

/-- Embedding of the sub-sub-TLV loop of `parseSRv6L3ServiceTLV`
(BGPPrefixSID.cpp lines 155-203): `while (subtlv_len > 0)`, 4-byte header,
dispatch on type 1 (`SRV6_SID_STRUCTURE_SUB_SUB_TLV`: six single-byte
fields appended as a `sid_structure` child), advance
`sub_data += subsubtlv.len - 1`, `subtlv_len -= subsubtlv.len + 3`, and the
coupled counter check `if (++subtlv_cnt > 3) { if (++tlv_cnt > 3) break; }`.
Returns `none` exactly when the fuel runs out. -/
def subSubTlvLoop (buf : List Nat) :
    Nat → Int → Int → PTree → Int → Int → Nat → Bool → Option SubSubResult
  | fuel, sub_data, subtlv_len, sub_pt, subtlv_cnt, tlv_cnt, iters, ov =>
    if subtlv_len > 0 then
      match fuel with
      | 0 => none
      | fuel + 1 =>
        let ty := byteAt buf sub_data
        let len := readU16 buf (sub_data + 1)
        let ov := ov || !rangeInBounds buf sub_data 4
        let sub_data := sub_data + 4
        let subsub_data := sub_data
        let subsub_pt :=
          ((((((PTree.empty.put "locator_block_length"
              (PVal.num (byteAt buf subsub_data))).put
            "locator_node_length" (PVal.num (byteAt buf (subsub_data + 1)))).put
            "function_length" (PVal.num (byteAt buf (subsub_data + 2)))).put
            "argument_length" (PVal.num (byteAt buf (subsub_data + 3)))).put
            "transposition_length" (PVal.num (byteAt buf (subsub_data + 4)))).put
            "transposition_offset" (PVal.num (byteAt buf (subsub_data + 5))))
        let sub_pt := if ty = 1 then sub_pt.add_child "sid_structure" subsub_pt
          else sub_pt
        let ov := if ty = 1 then ov || !rangeInBounds buf subsub_data 6 else ov
        let sub_data := sub_data + ((len : Int) - 1)
        let subtlv_len := subtlv_len - ((len : Int) + 3)
        let subtlv_cnt := subtlv_cnt + 1
        if subtlv_cnt > 3 then
          let tlv_cnt := tlv_cnt + 1
          if tlv_cnt > 3 then some ⟨sub_pt, tlv_cnt, iters + 1, ov⟩
          else subSubTlvLoop buf fuel sub_data subtlv_len sub_pt subtlv_cnt
            tlv_cnt (iters + 1) ov
        else subSubTlvLoop buf fuel sub_data subtlv_len sub_pt subtlv_cnt
          tlv_cnt (iters + 1) ov
    else some ⟨sub_pt, tlv_cnt, iters, ov⟩

/-- The sub-sub-TLV loop run with fuel `subtlv_len.toNat`, which the
termination theorems prove sufficient (each iteration decreases
`subtlv_len` by at least 3 against a strictly positive condition). -/
def runSubSubTlvLoop (buf : List Nat) (sub_data subtlv_len : Int)
    (sub_pt : PTree) (tlv_cnt : Int) (ov : Bool) : SubSubResult :=
  (subSubTlvLoop buf subtlv_len.toNat sub_data subtlv_len sub_pt 0 tlv_cnt 0
    ov).getD ⟨sub_pt, tlv_cnt, 0, ov⟩

/-- The `sid_information` node as the SID-Information branch fills it before
the sub-sub-TLV walk (BGPPrefixSID.cpp lines 125-135): the 16-byte SID read
without reversal and rendered as an IPv6 address, the flags byte, the
network-order endpoint-behavior code, and its looked-up name. -/
def sidInfoPt (buf : List Nat) (sub_data : Int) : PTree :=
  ((((PTree.empty.put "sid_value"
      (PVal.str (inet_ntop6 (readData buf sub_data 16 false)))).put
    "service_sid_flags" (PVal.num (byteAt buf (sub_data + 16)))).put
    "endpoint_behavior_codepoint"
    (PVal.num (readU16 buf (sub_data + 17)))).put
    "endpoint_behavior"
    (PVal.str (endpoint_behavior_codepoint_to_name
      (readU16 buf (sub_data + 17)))))

/-- Result of the sub-TLV loop: the SRv6 L3 Service node, plus ghost
diagnostics (outer iteration count, the inner loop's iteration count for
each SID-Information sub-TLV, overread). -/
structure SrvResult where
  pt : PTree
  outer_iters : Nat
  inner_iters : List Nat
  overread : Bool

/-- Embedding of the sub-TLV loop of `parseSRv6L3ServiceTLV`
(BGPPrefixSID.cpp lines 108-220): `while (tlv_len)` — non-zero, not
positive — 4-byte header, dispatch on type 1
(`SRV6_SID_INFORMATION_SUB_TLV`: 16-byte SID copied without reversal,
1-byte flags, 2-byte network-order endpoint behavior, 1-byte reserved,
then the sub-sub-TLV walk over `subtlv.len - 21` remaining bytes, the node
added as a `sid_information` child), advance `data += subtlv.len - 1`,
`tlv_len -= subtlv.len + 3`, and `if (++tlv_cnt > 3) break;`.
Returns `none` exactly when the fuel runs out. -/
def subTlvLoop (buf : List Nat) :
    Nat → Int → Int → PTree → Int → Nat → List Nat → Bool → Option SrvResult
  | fuel, data, tlv_len, pt, tlv_cnt, iters, inner, ov =>
    if tlv_len ≠ 0 then
      match fuel with
      | 0 => none
      | fuel + 1 =>
        let ty := byteAt buf data
        let len := readU16 buf (data + 1)
        let ov := ov || !rangeInBounds buf data 4
        let data := data + 4
        let sub_data := data
        let r := runSubSubTlvLoop buf (sub_data + 20) ((len : Int) - 21)
          (sidInfoPt buf sub_data) tlv_cnt (ov || !rangeInBounds buf sub_data 20)
        let pt := if ty = 1 then pt.add_child "sid_information" r.sub_pt else pt
        let tlv_cnt := if ty = 1 then r.tlv_cnt else tlv_cnt
        let inner := if ty = 1 then inner ++ [r.iters] else inner
        let ov := if ty = 1 then r.overread else ov
        let data := data + ((len : Int) - 1)
        let tlv_len := tlv_len - ((len : Int) + 3)
        let tlv_cnt := tlv_cnt + 1
        if tlv_cnt > 3 then some ⟨pt, iters + 1, inner, ov⟩
        else subTlvLoop buf fuel data tlv_len pt tlv_cnt (iters + 1) inner ov
    else some ⟨pt, iters, inner, ov⟩

/-- The sub-TLV loop run with fuel 4, which the termination theorems prove
sufficient (the `tlv_cnt` break bounds it to 4 iterations from a zero
counter). -/
def runSubTlvLoop (buf : List Nat) (data tlv_len : Int) (ov : Bool) :
    SrvResult :=
  (subTlvLoop buf 4 data tlv_len PTree.empty 0 0 [] ov).getD
    ⟨PTree.empty, 0, [], ov⟩

/-- Embedding of `BGPPrefixSID::parseSRv6L3ServiceTLV(int tlv_len, u_char
*data)` (BGPPrefixSID.cpp lines 103-222); the pointer argument is the pair
(buffer, offset). -/
def parseSRv6L3ServiceTLV (tlv_len : Int) (buf : List Nat) (data : Int) :
    SrvResult :=
  runSubTlvLoop buf data tlv_len false

/-- Result of the top-level attribute walk: the tree stored into
`parsed_data.attr_prefix_sid`, plus ghost diagnostics (top-level iteration
count, per-L3-Service-TLV outer iteration counts, per-SID-Information inner
iteration counts, overread). -/
structure AttrResult where
  pt : PTree
  top_iters : Nat
  sub_outer_iters : List Nat
  sub_inner_iters : List Nat
  overread : Bool

/-- Embedding of the TLV loop of `BGPPrefixSID::parseBGPPrefixSIDAttr`
(BGPPrefixSID.cpp lines 76-99): `while (attr_len > 0)`, 4-byte header,
dispatch on type 5 (`BGP_PREFIX_SID_TLV_TYPE_SRV6_L3_SERVICE_TLV`: parse
the inner `tlv.len - 1` bytes and add the node as an `srv6_l3_service`
child; every other type is skipped with a diagnostic only), then
`attr_len -= tlv.len + 3`, `data += tlv.len - 1`.
Returns `none` exactly when the fuel runs out. -/
def attrLoop (buf : List Nat) :
    Nat → Int → Int → PTree → Nat → List Nat → List Nat → Bool →
      Option AttrResult
  | fuel, attr_len, data, pt, iters, souter, sinner, ov =>
    if attr_len > 0 then
      match fuel with
      | 0 => none
      | fuel + 1 =>
        let ty := byteAt buf data
        let len := readU16 buf (data + 1)
        let ov := ov || !rangeInBounds buf data 4
        let data := data + 4
        let tlv_len : Int := (len : Int) - 1
        let r := runSubTlvLoop buf data tlv_len ov
        let pt := if ty = 5 then pt.add_child "srv6_l3_service" r.pt else pt
        let souter := if ty = 5 then souter ++ [r.outer_iters] else souter
        let sinner := if ty = 5 then sinner ++ r.inner_iters else sinner
        let ov := if ty = 5 then r.overread else ov
        attrLoop buf fuel (attr_len - ((len : Int) + 3))
          (data + ((len : Int) - 1)) pt (iters + 1) souter sinner ov
    else some ⟨pt, iters, souter, sinner, ov⟩

/-- Embedding of `BGPPrefixSID::parseBGPPrefixSIDAttr(int attr_len, u_char
*data, ...)` (BGPPrefixSID.cpp lines 70-101), run with fuel
`attr_len.toNat`, which the termination theorems prove sufficient (each
iteration decreases `attr_len` by at least 3). -/
def parseBGPPrefixSIDAttr (attr_len : Int) (buf : List Nat) : AttrResult :=
  (attrLoop buf attr_len.toNat attr_len 0 PTree.empty 0 [] [] false).getD
    ⟨PTree.empty, 0, [], [], false⟩

/-- Model of `UpdateMsg::parsed_update_data` as far as this decoder touches
it: the `attr_prefix_sid` slot it overwrites, plus a stand-in for the many
fields it never reads or writes. -/
structure parsed_update_data where
  attr_prefix_sid : PTree
  other_attrs : Nat

/-- The decoder's externally visible effect: `parsed_data.attr_prefix_sid =
pt` (BGPPrefixSID.cpp line 100) — the rest of `parsed_data` is untouched. -/
def parseBGPPrefixSIDAttrInto (attr_len : Int) (buf : List Nat)
    (pd : parsed_update_data) : parsed_update_data :=
  { pd with attr_prefix_sid := (parseBGPPrefixSIDAttr attr_len buf).pt }

/-- Wire image of an attribute holding one SRv6 L3 Service TLV (type 5, len
35) wrapping one SID-Information sub-TLV (type 1, len 31) whose trailing
bytes are one SID-Structure sub-sub-TLV (type 1, len 7): all lengths are
consistent and the total on-wire size is 38 bytes. -/
def mkSidAttr (a0 a1 a2 a3 a4 a5 a6 a7 a8 a9 a10 a11 a12 a13 a14 a15
    flags bhi blo s1 s2 s3 s4 s5 s6 : Nat) : List Nat :=
  [5, 0, 35, 0,
   1, 0, 31, 0,
   a0, a1, a2, a3, a4, a5, a6, a7, a8, a9, a10, a11, a12, a13, a14, a15,
   flags, bhi, blo, 0,
   1, 0, 7, 0,
   s1, s2, s3, s4, s5, s6]

/-- Fuel at least `subtlv_len.toNat` never runs out: each iteration of the
sub-sub-TLV loop decreases `subtlv_len` by at least 3 against the strictly
positive loop condition. -/
theorem subSubTlvLoop_isSome (buf : List Nat) :
    ∀ (fuel : Nat) (sd stl : Int) (spt : PTree) (sc tc : Int) (it : Nat)
      (ov : Bool), stl.toNat ≤ fuel →
      ∃ r, subSubTlvLoop buf fuel sd stl spt sc tc it ov = some r := by
  intro fuel
  induction fuel with
  | zero =>
    intro sd stl spt sc tc it ov h
    rw [subSubTlvLoop, if_neg (by omega)]
    exact ⟨_, rfl⟩
  | succ fuel ih =>
    intro sd stl spt sc tc it ov h
    by_cases hpos : stl > 0
    · rw [subSubTlvLoop, if_pos hpos]
      simp only []
      split
      · split
        · exact ⟨_, rfl⟩
        · exact ih _ _ _ _ _ _ _ (by omega)
      · exact ih _ _ _ _ _ _ _ (by omega)
    · rw [subSubTlvLoop, if_neg hpos]
      exact ⟨_, rfl⟩

/-- The sub-sub-TLV loop only ever increments the shared `tlv_cnt`
counter. -/
theorem subSubTlvLoop_tlv_cnt_ge (buf : List Nat) :
    ∀ (fuel : Nat) (sd stl : Int) (spt : PTree) (sc tc : Int) (it : Nat)
      (ov : Bool) (r : SubSubResult),
      subSubTlvLoop buf fuel sd stl spt sc tc it ov = some r →
      tc ≤ r.tlv_cnt := by
  intro fuel
  induction fuel with
  | zero =>
    intro sd stl spt sc tc it ov r h
    rw [subSubTlvLoop] at h
    split at h
    · exact absurd h (by simp)
    · cases h; exact le_refl _
  | succ fuel ih =>
    intro sd stl spt sc tc it ov r h
    rw [subSubTlvLoop] at h
    split at h
    · simp only [] at h
      split at h
      · split at h
        · cases h; simp
        · have := ih _ _ _ _ _ _ _ _ h; omega
      · exact ih _ _ _ _ _ _ _ _ h
    · cases h; exact le_refl _

/-- `runSubSubTlvLoop` only ever increments the shared `tlv_cnt` counter. -/
theorem runSubSubTlvLoop_tlv_cnt_ge (buf : List Nat) (sd stl : Int)
    (spt : PTree) (tc : Int) (ov : Bool) :
    tc ≤ (runSubSubTlvLoop buf sd stl spt tc ov).tlv_cnt := by
  unfold runSubSubTlvLoop
  cases h : subSubTlvLoop buf stl.toNat sd stl spt 0 tc 0 ov with
  | none => simp
  | some r => simpa using subSubTlvLoop_tlv_cnt_ge buf _ _ _ _ _ _ _ _ _ h

/-- Fuel 4 never runs out in the sub-TLV loop: `tlv_cnt` starts at 0, grows
by at least one per iteration, and the loop breaks once it exceeds 3. -/
theorem subTlvLoop_isSome (buf : List Nat) :
    ∀ (fuel : Nat) (data tl : Int) (pt : PTree) (tc : Int) (it : Nat)
      (il : List Nat) (ov : Bool), 0 ≤ tc → tc ≤ 3 → (4 - tc).toNat ≤ fuel →
      ∃ r, subTlvLoop buf fuel data tl pt tc it il ov = some r := by
  intro fuel
  induction fuel with
  | zero => intro data tl pt tc it il ov h0 h3 hf; omega
  | succ fuel ih =>
    intro data tl pt tc it il ov h0 h3 hf
    by_cases hz : tl ≠ 0
    · rw [subTlvLoop, if_pos hz]
      simp only []
      have hge := runSubSubTlvLoop_tlv_cnt_ge buf (data + 4 + 20)
        ((readU16 buf (data + 1) : Int) - 21) (sidInfoPt buf (data + 4)) tc
        ((ov || !rangeInBounds buf data 4) || !rangeInBounds buf (data + 4) 20)
      by_cases hty : byteAt buf data = 1
      · simp only [if_pos hty]
        split
        · exact ⟨_, rfl⟩
        · exact ih _ _ _ _ _ _ _ (by omega) (by omega) (by omega)
      · simp only [if_neg hty]
        split
        · exact ⟨_, rfl⟩
        · exact ih _ _ _ _ _ _ _ (by omega) (by omega) (by omega)
    · rw [subTlvLoop, if_neg hz]
      exact ⟨_, rfl⟩

/-- The sub-TLV loop runs at most `4 - tlv_cnt` further iterations: the
`++tlv_cnt > 3` break fires after at most that many. -/
theorem subTlvLoop_iters_le (buf : List Nat) :
    ∀ (fuel : Nat) (data tl : Int) (pt : PTree) (tc : Int) (it : Nat)
      (il : List Nat) (ov : Bool) (r : SrvResult),
      0 ≤ tc → tc ≤ 3 →
      subTlvLoop buf fuel data tl pt tc it il ov = some r →
      r.outer_iters ≤ it + (4 - tc).toNat := by
  intro fuel
  induction fuel with
  | zero =>
    intro data tl pt tc it il ov r h0 h3 h
    rw [subTlvLoop] at h
    split at h
    · exact absurd h (by simp)
    · cases h; simp
  | succ fuel ih =>
    intro data tl pt tc it il ov r h0 h3 h
    rw [subTlvLoop] at h
    split at h
    · simp only [] at h
      have hge := runSubSubTlvLoop_tlv_cnt_ge buf (data + 4 + 20)
        ((readU16 buf (data + 1) : Int) - 21) (sidInfoPt buf (data + 4)) tc
        ((ov || !rangeInBounds buf data 4) || !rangeInBounds buf (data + 4) 20)
      by_cases hty : byteAt buf data = 1
      · simp only [if_pos hty] at h
        split at h
        · cases h; simp; omega
        · rename_i hle
          have := ih _ _ _ _ _ _ _ _ (by omega) (by omega) h
          omega
      · simp only [if_neg hty] at h
        split at h
        · cases h; simp; omega
        · rename_i hle
          have := ih _ _ _ _ _ _ _ _ (by omega) (by omega) h
          omega
    · cases h; simp

/-- Fuel at least `attr_len.toNat` never runs out: each iteration of the
top-level TLV loop decreases `attr_len` by at least 3. -/
theorem attrLoop_isSome (buf : List Nat) :
    ∀ (fuel : Nat) (a data : Int) (pt : PTree) (it : Nat)
      (so si : List Nat) (ov : Bool), a.toNat ≤ fuel →
      ∃ r, attrLoop buf fuel a data pt it so si ov = some r := by
  intro fuel
  induction fuel with
  | zero =>
    intro a data pt it so si ov h
    rw [attrLoop, if_neg (by omega)]
    exact ⟨_, rfl⟩
  | succ fuel ih =>
    intro a data pt it so si ov h
    by_cases hpos : a > 0
    · rw [attrLoop, if_pos hpos]
      simp only []
      exact ih _ _ _ _ _ _ _ (by omega)
    · rw [attrLoop, if_neg hpos]
      exact ⟨_, rfl⟩

/-- The top-level TLV loop runs at most `ceil(attr_len / 3)` iterations. -/
theorem attrLoop_iters_le (buf : List Nat) :
    ∀ (fuel : Nat) (a data : Int) (pt : PTree) (it : Nat)
      (so si : List Nat) (ov : Bool) (r : AttrResult),
      attrLoop buf fuel a data pt it so si ov = some r →
      r.top_iters ≤ it + (a.toNat + 2) / 3 := by
  intro fuel
  induction fuel with
  | zero =>
    intro a data pt it so si ov r h
    rw [attrLoop] at h
    split at h
    · exact absurd h (by simp)
    · cases h; simp
  | succ fuel ih =>
    intro a data pt it so si ov r h
    rw [attrLoop] at h
    split at h
    · simp only [] at h
      rename_i hpos
      have := ih _ _ _ _ _ _ _ _ h
      omega
    · cases h; simp

/-- A key absent from every pair of an association list is not found. -/
theorem lookup_none_of_forall {l : List (Nat × String)} {a : Nat}
    (h : ∀ p ∈ l, p.1 ≠ a) : List.lookup a l = none := by
  induction l with
  | nil => rfl
  | cons p rest ih =>
    obtain ⟨k, v⟩ := p
    have h1 : k ≠ a := h (k, v) (List.mem_cons_self _ _)
    have hb : (a == k) = false := beq_eq_false_iff_ne.mpr fun hh => h1 hh.symm
    rw [List.lookup, hb]
    exact ih fun q hq => h q (List.mem_cons_of_mem _ hq)

/-- Every explicit codepoint of the switch is at most 32767 or equals
65535. -/
theorem behavior_table_keys :
    ∀ p ∈ behavior_table, p.1 ≤ 32767 ∨ p.1 = 65535 := by decide

/-- No explicit switch arm matches a code in 32768..65534. -/
theorem behavior_lookup_none_high {code : Nat} (h1 : 32768 ≤ code)
    (h2 : code ≤ 65534) : List.lookup code behavior_table = none :=
  lookup_none_of_forall fun p hp => by
    have := behavior_table_keys p hp; omega

/-- Codes 32768..34815 name the private-use range. -/
theorem eb_name_private {code : Nat} (h1 : 32768 ≤ code) (h2 : code ≤ 34815) :
    endpoint_behavior_codepoint_to_name code = "Reserved for Private Use" := by
  unfold endpoint_behavior_codepoint_to_name
  rw [behavior_lookup_none_high h1 (by omega)]
  rw [if_pos ⟨h1, h2⟩]

/-- Codes 34816..65534 name the reserved range. -/
theorem eb_name_reserved {code : Nat} (h1 : 34816 ≤ code) (h2 : code ≤ 65534) :
    endpoint_behavior_codepoint_to_name code = "Reserved" := by
  unfold endpoint_behavior_codepoint_to_name
  rw [behavior_lookup_none_high (by omega) h2]
  rw [if_neg (by omega), if_pos ⟨h1, h2⟩]

/-- A low code matched by no explicit arm is unassigned. -/
theorem eb_name_unassigned {code : Nat}
    (hl : List.lookup code behavior_table = none) (h : code < 32768) :
    endpoint_behavior_codepoint_to_name code = "Unassigned" := by
  unfold endpoint_behavior_codepoint_to_name
  rw [hl, if_neg (by omega), if_neg (by omega)]

/-- A modelled pointer read yields an element of the buffer or the
out-of-range default 0. -/
theorem byteAt_mem_or_zero (buf : List Nat) (i : Int) :
    byteAt buf i ∈ buf ∨ byteAt buf i = 0 := by
  unfold byteAt
  split
  · by_cases h : i.toNat < buf.length
    · left
      rw [List.getD_eq_getElem?_getD, List.getElem?_eq_getElem h]
      apply List.getElem_mem
    · right
      rw [List.getD_eq_getElem?_getD, List.getElem?_eq_none (by omega)]
      rfl
  · right; rfl

/-- A buffer containing no byte 5 can never select the SRv6 L3 Service
branch, so the top-level walk adds no child at all. -/
theorem attrLoop_pt_of_no5 (buf : List Nat) (hb : (5 : Nat) ∉ buf) :
    ∀ (fuel : Nat) (a data : Int) (pt : PTree) (it : Nat) (so si : List Nat)
      (ov : Bool) (r : AttrResult),
      attrLoop buf fuel a data pt it so si ov = some r → r.pt = pt := by
  have h5 : ∀ i : Int, byteAt buf i ≠ 5 := fun i => by
    rcases byteAt_mem_or_zero buf i with h | h
    · exact fun e => hb (e ▸ h)
    · omega
  intro fuel
  induction fuel with
  | zero =>
    intro a data pt it so si ov r h
    rw [attrLoop] at h
    split at h
    · exact absurd h (by simp)
    · cases h; rfl
  | succ fuel ih =>
    intro a data pt it so si ov r h
    rw [attrLoop] at h
    split at h
    · simp only [if_neg (h5 data)] at h
      exact ih _ _ _ _ _ _ _ _ h
    · cases h; rfl

/-- One top-level iteration over a TLV whose type is not 5 consumes exactly
`tlv.len + 3` on-wire bytes, decrements the budget by `tlv.len + 3`, and
leaves the output tree untouched (the TLV is skipped, not fatal). -/
theorem attrLoop_skip_step (buf : List Nat) (fuel : Nat) (a data : Int)
    (pt : PTree) (it : Nat) (so si : List Nat) (ov : Bool) (h : 0 < a)
    (h5 : byteAt buf data ≠ 5) :
    attrLoop buf (fuel + 1) a data pt it so si ov =
      attrLoop buf fuel (a - ((readU16 buf (data + 1) : Int) + 3))
        (data + ((readU16 buf (data + 1) : Int) + 3)) pt (it + 1) so si
        (ov || !rangeInBounds buf data 4) := by
  rw [attrLoop, if_pos h]
  simp only [if_neg h5]
  have e1 : data + 4 + ((readU16 buf (data + 1) : Int) - 1) =
      data + ((readU16 buf (data + 1) : Int) + 3) := by omega
  rw [e1]

/-- When the first TLV's on-wire size reaches or exceeds the remaining
`attr_len` budget, the top-level loop performs exactly one more iteration:
the budget becomes non-positive and the `attr_len > 0` condition stops the
walk. -/
theorem attrLoop_oversized_stops (buf : List Nat) (fuel : Nat) (a data : Int)
    (pt : PTree) (it : Nat) (so si : List Nat) (ov : Bool) (h : 0 < a)
    (hover : a - ((readU16 buf (data + 1) : Int) + 3) ≤ 0) :
    ∃ r, attrLoop buf (fuel + 1) a data pt it so si ov = some r ∧
      r.top_iters = it + 1 := by
  rw [attrLoop, if_pos h]
  simp only []
  rw [attrLoop.eq_def]
  simp only []
  rw [if_neg (by omega)]
  exact ⟨_, rfl, rfl⟩

/-- When the first sub-sub-TLV's on-wire size reaches or exceeds the
remaining `subtlv_len` budget, the sub-sub-TLV loop performs exactly one
more iteration: the budget becomes non-positive and the `subtlv_len > 0`
condition stops the walk. -/
theorem subSubTlvLoop_oversized_stops (buf : List Nat) (fuel : Nat)
    (sd stl : Int) (spt : PTree) (sc tc : Int) (it : Nat) (ov : Bool)
    (h : 0 < stl)
    (hover : stl - ((readU16 buf (sd + 1) : Int) + 3) ≤ 0) :
    ∃ r, subSubTlvLoop buf (fuel + 1) sd stl spt sc tc it ov = some r ∧
      r.iters = it + 1 := by
  rw [subSubTlvLoop, if_pos h]
  by_cases hty : byteAt buf sd = 1
  · simp only [if_pos hty]
    split
    · split
      · exact ⟨_, rfl, rfl⟩
      · rw [subSubTlvLoop.eq_def]
        simp only []
        rw [if_neg (by omega)]
        exact ⟨_, rfl, rfl⟩
    · rw [subSubTlvLoop.eq_def]
      simp only []
      rw [if_neg (by omega)]
      exact ⟨_, rfl, rfl⟩
  · simp only [if_neg hty]
    split
    · split
      · exact ⟨_, rfl, rfl⟩
      · rw [subSubTlvLoop.eq_def]
        simp only []
        rw [if_neg (by omega)]
        exact ⟨_, rfl, rfl⟩
    · rw [subSubTlvLoop.eq_def]
      simp only []
      rw [if_neg (by omega)]
      exact ⟨_, rfl, rfl⟩

/-- With `host_byte_order = true`, `readData` writes
`field[j] = data[size - 1 - j]`. -/
theorem readData_getD_true (buf : List Nat) (i : Int) (size j : Nat)
    (h : j < size) : (readData buf i size true).getD j 0 =
      byteAt buf (i + ((size : Int) - 1 - (j : Int))) := by
  have e : readData buf i size true = (List.range size).map
      (fun (j : Nat) => byteAt buf (i + ((size : Int) - 1 - (j : Int)))) := rfl
  rw [e, List.getD_eq_getElem?_getD, List.getElem?_map, List.getElem?_range h]
  rfl

/-- With `host_byte_order = false`, `readData` copies verbatim:
`field[j] = data[j]`. -/
theorem readData_getD_false (buf : List Nat) (i : Int) (size j : Nat)
    (h : j < size) : (readData buf i size false).getD j 0 =
      byteAt buf (i + (j : Int)) := by
  have e : readData buf i size false = (List.range size).map
      (fun (j : Nat) => byteAt buf (i + (j : Int))) := rfl
  rw [e, List.getD_eq_getElem?_getD, List.getElem?_map, List.getElem?_range h]
  rfl

/-- An attribute consisting of exactly two type-5 TLVs decodes to a tree
with two `srv6_l3_service` children, in input order: the second `add_child`
appends rather than overwriting. -/
theorem attr_two_l3_tlvs (buf : List Nat) (attr_len : Int)
    (h0 : byteAt buf 0 = 5)
    (h1 : byteAt buf ((readU16 buf 1 : Int) + 3) = 5)
    (hlen : attr_len = ((readU16 buf 1 : Int) + 3) +
      ((readU16 buf ((readU16 buf 1 : Int) + 4) : Int) + 3)) :
    ∃ t1 t2, (parseBGPPrefixSIDAttr attr_len buf).pt.children =
      [("srv6_l3_service", t1), ("srv6_l3_service", t2)] := by
  unfold parseBGPPrefixSIDAttr
  obtain ⟨f, hf⟩ : ∃ f, attr_len.toNat = f + 1 + 1 :=
    ⟨readU16 buf 1 + readU16 buf ((readU16 buf 1 : Int) + 4) + 4, by omega⟩
  rw [hf]
  rw [attrLoop, if_pos (by omega)]
  simp only [zero_add, if_pos h0]
  have e1 : (4 : Int) + ((readU16 buf 1 : Int) - 1) =
      (readU16 buf 1 : Int) + 3 := by omega
  have e2 : attr_len - ((readU16 buf 1 : Int) + 3) =
      (readU16 buf ((readU16 buf 1 : Int) + 4) : Int) + 3 := by omega
  rw [e1, e2]
  rw [attrLoop.eq_def]
  simp only []
  rw [if_pos (by omega)]
  simp only [if_pos h1]
  have e3 : (readU16 buf 1 : Int) + 3 + 1 = (readU16 buf 1 : Int) + 4 := by
    omega
  rw [e3]
  have e4 : (readU16 buf ((readU16 buf 1 : Int) + 4) : Int) + 3 -
      ((readU16 buf ((readU16 buf 1 : Int) + 4) : Int) + 3) = 0 := by omega
  rw [e4]
  rw [attrLoop.eq_def]
  simp only []
  rw [if_neg (by omega)]
  exact ⟨_, _, rfl⟩

set_option maxRecDepth 10000

/-- Shared general decode equation: an attribute holding exactly one SRv6 L3
Service TLV, one SID-Information sub-TLV and one SID-Structure
sub-sub-TLV with consistent lengths decodes — for arbitrary SID bytes,
flags, endpoint-behavior bytes and structure bytes — to the fully populated
tree, in one iteration per level and with no out-of-bounds read. -/
theorem parse_mkSidAttr (a0 a1 a2 a3 a4 a5 a6 a7 a8 a9 a10 a11 a12 a13 a14 a15
    flags bhi blo s1 s2 s3 s4 s5 s6 : Nat) :
    parseBGPPrefixSIDAttr 38 (mkSidAttr a0 a1 a2 a3 a4 a5 a6 a7 a8 a9 a10 a11
      a12 a13 a14 a15 flags bhi blo s1 s2 s3 s4 s5 s6) =
    ⟨PTree.node .null [("srv6_l3_service", .node .null [("sid_information",
      .node .null [
        ("sid_value", .node (.str (inet_ntop6 [a0, a1, a2, a3, a4, a5, a6, a7,
          a8, a9, a10, a11, a12, a13, a14, a15])) []),
        ("service_sid_flags", .node (.num flags) []),
        ("endpoint_behavior_codepoint", .node (.num (blo + 256 * bhi)) []),
        ("endpoint_behavior", .node (.str (endpoint_behavior_codepoint_to_name
          (blo + 256 * bhi))) []),
        ("sid_structure", .node .null [
          ("locator_block_length", .node (.num s1) []),
          ("locator_node_length", .node (.num s2) []),
          ("function_length", .node (.num s3) []),
          ("argument_length", .node (.num s4) []),
          ("transposition_length", .node (.num s5) []),
          ("transposition_offset", .node (.num s6) [])])])])],
     1, [1], [1], false⟩ := rfl

/-- C1, counterexample: decoding the one-byte buffer `[5]` with
`attr_len = 1` reads past the end of the buffer — the 4-byte TLV header read
touches offsets 1..3 — instead of failing with an out-of-bounds error, and
still returns after one top-level iteration. -/
theorem c1_counterexample :
    (parseBGPPrefixSIDAttr 1 [5]).overread = true ∧
    (parseBGPPrefixSIDAttr 1 [5]).top_iters = 1 := ⟨rfl, rfl⟩

/-- C1, amended: the decoder performs no bounds checking.  `readData` never
fails: it always copies exactly `size` byte positions whether or not they
lie inside the buffer; the decode always returns a tree (it cannot signal
an out-of-bounds failure); and decoding a truncated buffer can read past the
buffer's end, as on the truncated input `[5, 0]` with `attr_len = 2`. -/
theorem c1_no_bounds_checks :
    (∀ (buf : List Nat) (i : Int) (size : Nat) (ho : Bool),
      (readData buf i size ho).length = size) ∧
    (∀ (attr_len : Int) (buf : List Nat), ∃ r,
      attrLoop buf attr_len.toNat attr_len 0 PTree.empty 0 [] [] false =
        some r) ∧
    (parseBGPPrefixSIDAttr 2 [5, 0]).overread = true := by
  refine ⟨?_, ?_, rfl⟩
  · intro buf i size ho
    cases ho <;> simp [readData]
  · intro attr_len buf
    exact attrLoop_isSome buf _ _ _ _ _ _ _ _ (le_refl _)

/-- C2, counterexample: the type-5 TLV declares `tlv.len = 3`, so the
sub-TLV budget is `tlv_len = 2`; its first sub-TLV declares length 0 and so
occupies 3 on-wire bytes, exceeding the budget — yet decoding at the
sub-TLV level does not stop: `tlv_len` becomes −1, the `while (tlv_len)`
non-zero test keeps iterating, and the level runs 4 iterations until the
sibling counter breaks. -/
theorem c2_counterexample :
    readU16 ([5, 0, 3, 0] ++ List.replicate 12 0) 1 = 3 ∧
    readU16 ([5, 0, 3, 0] ++ List.replicate 12 0) 5 = 0 ∧
    (parseBGPPrefixSIDAttr 6
      ([5, 0, 3, 0] ++ List.replicate 12 0)).sub_outer_iters = [4] :=
  ⟨rfl, rfl, rfl⟩

/-- C2, amended: only the top level (`while (attr_len > 0)`) and the
sub-sub level (`while (subtlv_len > 0)`) stop after a child whose on-wire
size exceeds the remaining budget — the negative budget fails their
positivity test, with no explicit detection; at the sub-TLV level the
`while (tlv_len)` condition tests non-zero, so an oversized child drives
`tlv_len` negative and the loop keeps iterating until the sibling counter
bound, as on the concrete input below (budget 4, first child 3 bytes,
then negative budget, 4 iterations). -/
theorem c2_budget_checks :
    (∀ (buf : List Nat) (fuel : Nat) (a data : Int) (pt : PTree) (it : Nat)
      (so si : List Nat) (ov : Bool), 0 < a →
      a - ((readU16 buf (data + 1) : Int) + 3) ≤ 0 →
      ∃ r, attrLoop buf (fuel + 1) a data pt it so si ov = some r ∧
        r.top_iters = it + 1) ∧
    (∀ (buf : List Nat) (fuel : Nat) (sd stl : Int) (spt : PTree)
      (sc tc : Int) (it : Nat) (ov : Bool), 0 < stl →
      stl - ((readU16 buf (sd + 1) : Int) + 3) ≤ 0 →
      ∃ r, subSubTlvLoop buf (fuel + 1) sd stl spt sc tc it ov = some r ∧
        r.iters = it + 1) ∧
    (parseBGPPrefixSIDAttr 8
      ([5, 0, 5, 0] ++ List.replicate 12 0)).sub_outer_iters = [4] := by
  refine ⟨?_, ?_, rfl⟩
  · intro buf fuel a data pt it so si ov h hover
    exact attrLoop_oversized_stops buf fuel a data pt it so si ov h hover
  · intro buf fuel sd stl spt sc tc it ov h hover
    exact subSubTlvLoop_oversized_stops buf fuel sd stl spt sc tc it ov h hover

/-- C3, counterexample: the top-level TLV walk has no sibling counter at
all — fifteen zero bytes decode as five zero-length TLVs and the top level
runs 5 iterations, more than the claimed maximum of 4. -/
theorem c3_counterexample :
    (parseBGPPrefixSIDAttr 15 (List.replicate 15 0)).top_iters = 5 := rfl

/-- C3, amended: only the sub-TLV and sub-sub-TLV levels carry sibling
counters.  The sub-TLV loop increments `tlv_cnt` once per element and
aborts once it exceeds 3, so that level processes at most 4 elements; the
sub-sub loop aborts only when both its own `subtlv_cnt` and the outer
`tlv_cnt` exceed 3, so it can process up to 7 elements (concrete input
below); the top level is bounded only by the length budget. -/
theorem c3_sibling_counters :
    (∀ (buf : List Nat) (data tlv_len : Int) (ov : Bool) (r : SrvResult),
      subTlvLoop buf 4 data tlv_len PTree.empty 0 0 [] ov = some r →
      r.outer_iters ≤ 4) ∧
    (parseBGPPrefixSIDAttr 47 ([5, 0, 44, 0, 1, 0, 40, 0] ++
      List.replicate 42 0)).sub_inner_iters = [7] := by
  refine ⟨?_, rfl⟩
  intro buf data tlv_len ov r h
  simpa using subTlvLoop_iters_le buf 4 data tlv_len PTree.empty 0 0 [] ov r
    (by omega) (by omega) h

/-- C4: `endpoint_behavior_codepoint_to_name` is total — every 16-bit code
yields a name, with code 1 ↦ "End", code 20 ↦ "End.DT46", every code in
32768..34815 ↦ "Reserved for Private Use" (for example 33000), every code
in 34816..65534 ↦ "Reserved" (for example 40000), and every code matched
by no explicit arm and outside those ranges ↦ "Unassigned" (for example
9999). -/
theorem c4_endpoint_behavior_name :
    endpoint_behavior_codepoint_to_name 1 = "End" ∧
    endpoint_behavior_codepoint_to_name 20 = "End.DT46" ∧
    (∀ code, 32768 ≤ code → code ≤ 34815 →
      endpoint_behavior_codepoint_to_name code = "Reserved for Private Use") ∧
    (∀ code, 34816 ≤ code → code ≤ 65534 →
      endpoint_behavior_codepoint_to_name code = "Reserved") ∧
    endpoint_behavior_codepoint_to_name 33000 = "Reserved for Private Use" ∧
    endpoint_behavior_codepoint_to_name 40000 = "Reserved" ∧
    endpoint_behavior_codepoint_to_name 9999 = "Unassigned" ∧
    (∀ code, List.lookup code behavior_table = none → code < 32768 →
      endpoint_behavior_codepoint_to_name code = "Unassigned") := by
  refine ⟨rfl, rfl, ?_, ?_, rfl, rfl, rfl, ?_⟩
  · intro code h1 h2; exact eb_name_private h1 h2
  · intro code h1 h2; exact eb_name_reserved h1 h2
  · intro code hl h; exact eb_name_unassigned hl h

/-- C5: for every consistent single-TLV / single-sub-TLV /
single-sub-sub-TLV attribute, the decoded `srv6_l3_service.sid_information`
node carries the rendered SID, the flags, the endpoint-behavior codepoint
and name, and a `sid_structure` child with exactly the six literal payload
bytes; on the concrete example (SID `2001:db8::1`, flags 0, behavior 18,
structure 32/16/16/0/0/0) the tree reports `sid_value = "2001:db8::1"`,
`endpoint_behavior = "End.DT6"` and `locator_block_length = 32`. -/
theorem c5_single_tlv_decode :
    (∀ a0 a1 a2 a3 a4 a5 a6 a7 a8 a9 a10 a11 a12 a13 a14 a15
        flags bhi blo s1 s2 s3 s4 s5 s6 : Nat,
      parseBGPPrefixSIDAttr 38 (mkSidAttr a0 a1 a2 a3 a4 a5 a6 a7 a8 a9 a10
        a11 a12 a13 a14 a15 flags bhi blo s1 s2 s3 s4 s5 s6) =
      ⟨PTree.node .null [("srv6_l3_service", .node .null [("sid_information",
        .node .null [
          ("sid_value", .node (.str (inet_ntop6 [a0, a1, a2, a3, a4, a5, a6,
            a7, a8, a9, a10, a11, a12, a13, a14, a15])) []),
          ("service_sid_flags", .node (.num flags) []),
          ("endpoint_behavior_codepoint", .node (.num (blo + 256 * bhi)) []),
          ("endpoint_behavior",
            .node (.str (endpoint_behavior_codepoint_to_name
              (blo + 256 * bhi))) []),
          ("sid_structure", .node .null [
            ("locator_block_length", .node (.num s1) []),
            ("locator_node_length", .node (.num s2) []),
            ("function_length", .node (.num s3) []),
            ("argument_length", .node (.num s4) []),
            ("transposition_length", .node (.num s5) []),
            ("transposition_offset", .node (.num s6) [])])])])],
       1, [1], [1], false⟩) ∧
    ((parseBGPPrefixSIDAttr 38 (mkSidAttr 32 1 13 184 0 0 0 0 0 0 0 0 0 0 0 1
        0 0 18 32 16 16 0 0 0)).pt.getPath
      ["srv6_l3_service", "sid_information", "sid_value"] =
      some (.node (.str "2001:db8::1") [])) ∧
    ((parseBGPPrefixSIDAttr 38 (mkSidAttr 32 1 13 184 0 0 0 0 0 0 0 0 0 0 0 1
        0 0 18 32 16 16 0 0 0)).pt.getPath
      ["srv6_l3_service", "sid_information", "endpoint_behavior"] =
      some (.node (.str "End.DT6") [])) ∧
    ((parseBGPPrefixSIDAttr 38 (mkSidAttr 32 1 13 184 0 0 0 0 0 0 0 0 0 0 0 1
        0 0 18 32 16 16 0 0 0)).pt.getPath
      ["srv6_l3_service", "sid_information", "sid_structure",
        "locator_block_length"] = some (.node (.num 32) [])) :=
  ⟨parse_mkSidAttr, rfl, rfl, rfl⟩

/-- C6: a top-level TLV of any unrecognized type is skipped, never fatal —
one iteration consumes exactly `tlv.len + 3` on-wire bytes and decrements
the budget by `tlv.len + 3` while leaving the tree untouched; a buffer with
no type-5 byte anywhere yields the empty tree; and after skipping a type-99
TLV the decoder still processes the following type-5 TLV (two concrete
inputs below, the second carrying a full SID payload). -/
theorem c6_unknown_tlv_skipped :
    (∀ (buf : List Nat) (fuel : Nat) (a data : Int) (pt : PTree) (it : Nat)
      (so si : List Nat) (ov : Bool), 0 < a → byteAt buf data ≠ 5 →
      attrLoop buf (fuel + 1) a data pt it so si ov =
        attrLoop buf fuel (a - ((readU16 buf (data + 1) : Int) + 3))
          (data + ((readU16 buf (data + 1) : Int) + 3)) pt (it + 1) so si
          (ov || !rangeInBounds buf data 4)) ∧
    (∀ (buf : List Nat) (attr_len : Int), (5 : Nat) ∉ buf →
      (parseBGPPrefixSIDAttr attr_len buf).pt = PTree.empty) ∧
    ((parseBGPPrefixSIDAttr 8 [99, 0, 1, 0, 5, 0, 1, 0]).pt =
      PTree.node .null [("srv6_l3_service", PTree.empty)] ∧
     (parseBGPPrefixSIDAttr 8 [99, 0, 1, 0, 5, 0, 1, 0]).top_iters = 2) ∧
    ((parseBGPPrefixSIDAttr 42 ([99, 0, 1, 0] ++ mkSidAttr 32 1 13 184 0 0 0
        0 0 0 0 0 0 0 0 1 0 0 18 32 16 16 0 0 0)).pt.getPath
      ["srv6_l3_service", "sid_information", "sid_value"] =
      some (.node (.str "2001:db8::1") [])) := by
  refine ⟨attrLoop_skip_step, ?_, ⟨rfl, rfl⟩, rfl⟩
  intro buf attr_len hb
  unfold parseBGPPrefixSIDAttr
  obtain ⟨r, hr⟩ :=
    attrLoop_isSome buf attr_len.toNat attr_len 0 PTree.empty 0 [] [] false
      (le_refl _)
  rw [hr]
  simpa using attrLoop_pt_of_no5 buf hb _ _ _ _ _ _ _ _ _ hr

/-- C7: `readData` with `host_byte_order = true` writes the source bytes in
reversed order (`field[j] = data[size−1−j]`), with `false` it copies them
verbatim, and for size 1 the two coincide; in the decoder the 16-byte SID
value is read without reversal while the 2-byte length and
endpoint-behavior fields are read reversed (network order), as the decoded
tree of the general single-TLV attribute shows. -/
theorem c7_readData_byte_order :
    (∀ (buf : List Nat) (i : Int) (size j : Nat), j < size →
      (readData buf i size true).getD j 0 =
        byteAt buf (i + ((size : Int) - 1 - (j : Int)))) ∧
    (∀ (buf : List Nat) (i : Int) (size j : Nat), j < size →
      (readData buf i size false).getD j 0 = byteAt buf (i + (j : Int))) ∧
    (∀ (buf : List Nat) (i : Int),
      readData buf i 1 true = readData buf i 1 false) ∧
    (∀ a0 a1 a2 a3 a4 a5 a6 a7 a8 a9 a10 a11 a12 a13 a14 a15
        flags bhi blo s1 s2 s3 s4 s5 s6 : Nat,
      (parseBGPPrefixSIDAttr 38 (mkSidAttr a0 a1 a2 a3 a4 a5 a6 a7 a8 a9 a10
        a11 a12 a13 a14 a15 flags bhi blo s1 s2 s3 s4 s5 s6)).pt.getPath
        ["srv6_l3_service", "sid_information", "sid_value"] =
        some (.node (.str (inet_ntop6 (readData (mkSidAttr a0 a1 a2 a3 a4 a5
          a6 a7 a8 a9 a10 a11 a12 a13 a14 a15 flags bhi blo s1 s2 s3 s4 s5
          s6) 8 16 false))) []) ∧
      (parseBGPPrefixSIDAttr 38 (mkSidAttr a0 a1 a2 a3 a4 a5 a6 a7 a8 a9 a10
        a11 a12 a13 a14 a15 flags bhi blo s1 s2 s3 s4 s5 s6)).pt.getPath
        ["srv6_l3_service", "sid_information",
          "endpoint_behavior_codepoint"] =
        some (.node (.num (u16ofBytes (readData (mkSidAttr a0 a1 a2 a3 a4 a5
          a6 a7 a8 a9 a10 a11 a12 a13 a14 a15 flags bhi blo s1 s2 s3 s4 s5
          s6) 25 2 true))) [])) := by
  refine ⟨readData_getD_true, readData_getD_false, fun buf i => rfl, ?_⟩
  intro a0 a1 a2 a3 a4 a5 a6 a7 a8 a9 a10 a11 a12 a13 a14 a15
    flags bhi blo s1 s2 s3 s4 s5 s6
  exact ⟨rfl, rfl⟩

/-- C8: decoding is deterministic and stateless — writing the result into
`parsed_data` twice equals writing it once, the stored tree depends only on
the `(attr_len, buffer)` inputs and not on any prior contents of
`parsed_data`, and nothing else in `parsed_data` is modified. -/
theorem c8_deterministic_idempotent :
    (∀ (attr_len : Int) (buf : List Nat) (pd : parsed_update_data),
      parseBGPPrefixSIDAttrInto attr_len buf
          (parseBGPPrefixSIDAttrInto attr_len buf pd) =
        parseBGPPrefixSIDAttrInto attr_len buf pd) ∧
    (∀ (attr_len : Int) (buf : List Nat) (pd pd' : parsed_update_data),
      (parseBGPPrefixSIDAttrInto attr_len buf pd).attr_prefix_sid =
        (parseBGPPrefixSIDAttrInto attr_len buf pd').attr_prefix_sid) ∧
    (∀ (attr_len : Int) (buf : List Nat) (pd : parsed_update_data),
      (parseBGPPrefixSIDAttrInto attr_len buf pd).other_attrs =
        pd.other_attrs) :=
  ⟨fun _ _ _ => rfl, fun _ _ _ _ => rfl, fun _ _ _ => rfl⟩

/-- C9: every loop terminates on every input — the top-level walk with fuel
`attr_len.toNat` always completes, in at most `⌈attr_len / 3⌉` iterations
(each iteration consumes at least 3 from the budget); the sub-TLV loop with
fuel 4 always completes, in at most 4 iterations (the `tlv_cnt` break fires
even when `tlv_len` skips past zero); and the sub-sub-TLV loop completes
whenever its fuel covers `subtlv_len.toNat` (the budget strictly decreases
by at least 3 against a strictly positive condition). -/
theorem c9_termination :
    (∀ (attr_len : Int) (buf : List Nat), ∃ r,
      attrLoop buf attr_len.toNat attr_len 0 PTree.empty 0 [] [] false =
        some r ∧ r.top_iters ≤ (attr_len.toNat + 2) / 3) ∧
    (∀ (buf : List Nat) (data tlv_len : Int) (ov : Bool), ∃ r,
      subTlvLoop buf 4 data tlv_len PTree.empty 0 0 [] ov = some r ∧
        r.outer_iters ≤ 4) ∧
    (∀ (buf : List Nat) (fuel : Nat) (sd stl : Int) (spt : PTree)
      (sc tc : Int) (it : Nat) (ov : Bool), stl.toNat ≤ fuel →
      ∃ r, subSubTlvLoop buf fuel sd stl spt sc tc it ov = some r) := by
  refine ⟨?_, ?_, ?_⟩
  · intro attr_len buf
    obtain ⟨r, hr⟩ :=
      attrLoop_isSome buf attr_len.toNat attr_len 0 PTree.empty 0 [] [] false
        (le_refl _)
    exact ⟨r, hr, by simpa using attrLoop_iters_le buf _ _ _ _ _ _ _ _ _ hr⟩
  · intro buf data tlv_len ov
    obtain ⟨r, hr⟩ :=
      subTlvLoop_isSome buf 4 data tlv_len PTree.empty 0 0 [] ov (by omega)
        (by omega) (by omega)
    refine ⟨r, hr, ?_⟩
    have hb := subTlvLoop_iters_le buf 4 data tlv_len PTree.empty 0 0 [] ov r
      (by omega) (by omega) hr
    simpa using hb
  · intro buf fuel sd stl spt sc tc it ov h
    exact subSubTlvLoop_isSome buf fuel sd stl spt sc tc it ov h

/-- C10: recognized siblings at the same nesting level each append a child
under the same key, in input order, never overwriting: `add_child` always
appends; any attribute of exactly two type-5 TLVs yields two
`srv6_l3_service` children; and on concrete inputs the tree holds two
`srv6_l3_service` children (first one empty, matching the first, empty
TLV), two `sid_information` children with distinct codepoints 1 and 20 in
input order, and two `sid_structure` children with distinct first bytes 11
and 22 in input order. -/
theorem c10_duplicate_keys :
    (∀ (t : PTree) (key : String) (c : PTree),
      (t.add_child key c).children = t.children ++ [(key, c)]) ∧
    (∀ (buf : List Nat) (attr_len : Int),
      byteAt buf 0 = 5 → byteAt buf ((readU16 buf 1 : Int) + 3) = 5 →
      attr_len = ((readU16 buf 1 : Int) + 3) +
        ((readU16 buf ((readU16 buf 1 : Int) + 4) : Int) + 3) →
      ∃ t1 t2, (parseBGPPrefixSIDAttr attr_len buf).pt.children =
        [("srv6_l3_service", t1), ("srv6_l3_service", t2)]) ∧
    ((parseBGPPrefixSIDAttr 42 ([5, 0, 1, 0] ++ mkSidAttr 32 1 13 184 0 0 0 0
        0 0 0 0 0 0 0 1 0 0 18 32 16 16 0 0 0)).pt.children.map Prod.fst =
      ["srv6_l3_service", "srv6_l3_service"] ∧
     (parseBGPPrefixSIDAttr 42 ([5, 0, 1, 0] ++ mkSidAttr 32 1 13 184 0 0 0 0
        0 0 0 0 0 0 0 1 0 0 18 32 16 16 0 0 0)).pt.getPath
       ["srv6_l3_service"] = some PTree.empty) ∧
    ((parseBGPPrefixSIDAttr 52 ([5, 0, 49, 0] ++ [1, 0, 21, 0] ++
        List.replicate 17 0 ++ [0, 1, 0] ++ [1, 0, 21, 0] ++
        List.replicate 17 0 ++ [0, 20, 0])).pt.getPath ["srv6_l3_service"] =
      some (.node .null [
        ("sid_information", .node .null [
          ("sid_value", .node (.str "::") []),
          ("service_sid_flags", .node (.num 0) []),
          ("endpoint_behavior_codepoint", .node (.num 1) []),
          ("endpoint_behavior", .node (.str "End") [])]),
        ("sid_information", .node .null [
          ("sid_value", .node (.str "::") []),
          ("service_sid_flags", .node (.num 0) []),
          ("endpoint_behavior_codepoint", .node (.num 20) []),
          ("endpoint_behavior", .node (.str "End.DT46") [])])])) ∧
    ((parseBGPPrefixSIDAttr 48 ([5, 0, 45, 0, 1, 0, 41, 0] ++
        List.replicate 20 0 ++ [1, 0, 7, 0, 11, 0, 0, 0, 0, 0] ++
        [1, 0, 7, 0, 22, 0, 0, 0, 0, 0])).pt.getPath
      ["srv6_l3_service", "sid_information"] =
      some (.node .null [
        ("sid_value", .node (.str "::") []),
        ("service_sid_flags", .node (.num 0) []),
        ("endpoint_behavior_codepoint", .node (.num 0) []),
        ("endpoint_behavior", .node (.str "Reserved") []),
        ("sid_structure", .node .null [
          ("locator_block_length", .node (.num 11) []),
          ("locator_node_length", .node (.num 0) []),
          ("function_length", .node (.num 0) []),
          ("argument_length", .node (.num 0) []),
          ("transposition_length", .node (.num 0) []),
          ("transposition_offset", .node (.num 0) [])]),
        ("sid_structure", .node .null [
          ("locator_block_length", .node (.num 22) []),
          ("locator_node_length", .node (.num 0) []),
          ("function_length", .node (.num 0) []),
          ("argument_length", .node (.num 0) []),
          ("transposition_length", .node (.num 0) []),
          ("transposition_offset", .node (.num 0) [])])])) :=
  ⟨fun _ _ _ => rfl, attr_two_l3_tlvs, ⟨rfl, rfl⟩, rfl, rfl⟩
